import Mathlib

/-
  Verification development for the MeetSync backend relay
  (Express server wiring Zoom Server-to-Server OAuth and Stripe Checkout).

  The source is embedded shallowly: each route handler and the token-cache
  accessor `getZoomAccessToken` become pure Lean functions.  Ambient
  process state (the module-level `accessToken` / `tokenExpiry` cell) is
  passed explicitly as a `CacheState`; the wall clock (`Date.now()`, in
  milliseconds) is an explicit `now : Int` argument; the upstream OAuth
  exchange is an explicit oracle argument recording what the network would
  return, and each accessor call reports how many outbound network
  requests it performed.
-/

namespace Meet

/-- Truthiness of an optional JavaScript string value: `undefined` (here
`none`) and the empty string are falsy, every other string is truthy.
This is the meaning of `!!s` and of `if (s)` in the source. -/
def jsTruthyStr : Option String → Bool
  | some s => decide (s ≠ "")
  | none => false

/-- Truthiness of an optional JavaScript number (modelled as an integer):
`undefined` and `0` are falsy. -/
def jsTruthyInt : Option Int → Bool
  | some n => decide (n ≠ 0)
  | none => false

/-- Truthiness of an optional JavaScript number modelled as a rational. -/
def jsTruthyRat : Option ℚ → Bool
  | some q => decide (q ≠ 0)
  | none => false

/-- JavaScript `x || d` on an optional string. -/
def jsOrStr (x : Option String) (d : String) : String :=
  if jsTruthyStr x then x.getD d else d

/-- JavaScript `x || d` on an optional integer. -/
def jsOrInt (x : Option Int) (d : Int) : Int :=
  if jsTruthyInt x then x.getD d else d

/-- JavaScript `x || d` on an optional rational. -/
def jsOrRat (x : Option ℚ) (d : ℚ) : ℚ :=
  if jsTruthyRat x then x.getD d else d

/-- JavaScript string concatenation `x + s` where `x` may be `undefined`
(which stringifies to `"undefined"`). -/
def jsAddStr (x : Option String) (s : String) : String :=
  (match x with
   | some v => v
   | none => "undefined") ++ s

/-- JavaScript `String(x)` on an optional number. -/
def jsStringOfRat : Option ℚ → String
  | some q => toString q
  | none => "undefined"

/-- JavaScript `Math.round`: round half toward positive infinity. -/
def jsRound (q : ℚ) : Int :=
  ⌊q + 1 / 2⌋

/-! ## POST /api/create-meeting — meeting payload construction -/

/-- Fields destructured from the `POST /api/create-meeting` request body:
`const [ topic, startTime, duration ] = req.body` (braces in the source). -/
structure MeetingBody where
  topic : Option String
  startTime : Option String
  duration : Option Int
deriving DecidableEq

/-- The fixed `settings` object of the meeting payload. -/
structure MeetingSettings where
  host_video : Bool
  participant_video : Bool
  join_before_host : Bool
  waiting_room : Bool
  mute_upon_entry : Bool
deriving DecidableEq

/-- The `meetingData` payload sent to the Zoom meetings endpoint.  Note
that it has no start-time field at all: the handler never uses the
`startTime` it destructured from the body. -/
structure MeetingData where
  topic : String
  type : Nat
  duration : Int
  settings : MeetingSettings
deriving DecidableEq

/-- The `meetingData` object built by the `POST /api/create-meeting`
handler: topic defaults via `topic || 'MeetSync Call'`, type is the fixed
constant `1` (instant meeting), duration defaults via `duration || 60`,
and the settings block is constant. -/
def buildMeetingData (body : MeetingBody) : MeetingData :=
  { topic := jsOrStr body.topic "MeetSync Call"
    type := 1
    duration := jsOrInt body.duration 60
    settings :=
      { host_video := true
        participant_video := true
        join_before_host := true
        waiting_room := false
        mute_upon_entry := false } }

/-! ## POST /api/send-welcome-email -/

/-- Fields destructured from the `POST /api/send-welcome-email` body. -/
structure WelcomeBody where
  sessionId : Option String
  plan : Option String
deriving DecidableEq

/-- The part of a retrieved Stripe checkout session the handler reads. -/
structure RetrievedSession where
  customerEmail : Option String
deriving DecidableEq

/-- A JSON response envelope with an HTTP status. -/
structure JsonEnvelope where
  status : Nat
  success : Bool
  message : String
deriving DecidableEq

/-- The `POST /api/send-welcome-email` handler.  `retrieve` is the result
the Stripe SDK would return for `checkout.sessions.retrieve(sessionId)`
(an exception is caught by the inner try/catch and only logged).  The
handler inspects the retrieved session solely for logging and always
falls through to the same success envelope. -/
def sendWelcomeEmail (body : WelcomeBody)
    (retrieve : Except String RetrievedSession) : JsonEnvelope :=
  if jsTruthyStr body.sessionId then
    match retrieve with
    | .ok _ =>
        { status := 200, success := true, message := "Welcome email queued" }
    | .error _ =>
        { status := 200, success := true, message := "Welcome email queued" }
  else
    { status := 200, success := true, message := "Welcome email queued" }

/-! ## POST /api/stripe-webhook -/

/-- The parts of a verified Stripe event the handler reads. -/
structure StripeEvent where
  type : String
  objectId : String
  customerEmail : Option String
  planName : Option String
deriving DecidableEq

/-- Body of a webhook response: plain text (via `res.send`) or the JSON
object with the single boolean field `received` (via `res.json`). -/
inductive WebhookBody where
  | text : String → WebhookBody
  | jsonReceived : Bool → WebhookBody
deriving DecidableEq

/-- An HTTP response of the webhook route. -/
structure WebhookResponse where
  status : Nat
  body : WebhookBody
deriving DecidableEq

/-- The `POST /api/stripe-webhook` handler.  Signature verification is
delegated to the Stripe SDK (`stripe.webhooks.constructEvent`), modelled
as the `verification` argument: an error message when verification
throws, or the parsed event.  The switch on the event type only logs;
every branch reaches the same `received:true` JSON response. -/
def stripeWebhook (verification : Except String StripeEvent) :
    WebhookResponse :=
  match verification with
  | .error msg =>
      { status := 400, body := .text ("Webhook Error: " ++ msg) }
  | .ok event =>
      if event.type = "checkout.session.completed" then
        { status := 200, body := .jsonReceived true }
      else if event.type = "customer.subscription.created" then
        { status := 200, body := .jsonReceived true }
      else if event.type = "customer.subscription.deleted" then
        { status := 200, body := .jsonReceived true }
      else
        { status := 200, body := .jsonReceived true }

/-! ## GET / — health descriptor -/

/-- The environment variables the server reads, each possibly unset. -/
structure ServerEnv where
  zoomAccountId : Option String
  zoomClientId : Option String
  zoomClientSecret : Option String
  stripeSecretKey : Option String
deriving DecidableEq

/-- The JSON body returned by `GET /`: fixed strings plus four presence
booleans, computed with `!!` on each credential. -/
structure RootResponse where
  status : String
  service : String
  endpointCreateMeeting : String
  endpointCreateCheckout : String
  hasAccountId : Bool
  hasClientId : Bool
  hasClientSecret : Bool
  hasStripeKey : Bool
deriving DecidableEq

/-- The `GET /` handler. -/
def rootHandler (env : ServerEnv) : RootResponse :=
  { status := "ok"
    service := "MeetSync Zoom + Stripe Server"
    endpointCreateMeeting := "Create a new Zoom meeting"
    endpointCreateCheckout := "Create Stripe checkout session"
    hasAccountId := jsTruthyStr env.zoomAccountId
    hasClientId := jsTruthyStr env.zoomClientId
    hasClientSecret := jsTruthyStr env.zoomClientSecret
    hasStripeKey := jsTruthyStr env.stripeSecretKey }

/-- Which credentials are present, in the sense the code tests them
(`!!value`: an empty string counts as unset). -/
def presenceVector (env : ServerEnv) : Bool × Bool × Bool × Bool :=
  (jsTruthyStr env.zoomAccountId, jsTruthyStr env.zoomClientId,
   jsTruthyStr env.zoomClientSecret, jsTruthyStr env.stripeSecretKey)

/-- Replace every present credential value by a fixed placeholder,
keeping only its presence. -/
def maskValue (x : Option String) : Option String :=
  if jsTruthyStr x then some "set" else none

/-- Mask all credential values of an environment. -/
def maskEnv (env : ServerEnv) : ServerEnv :=
  { zoomAccountId := maskValue env.zoomAccountId
    zoomClientId := maskValue env.zoomClientId
    zoomClientSecret := maskValue env.zoomClientSecret
    stripeSecretKey := maskValue env.stripeSecretKey }

/-! ## POST /api/create-checkout-session -/

/-- Fields destructured from the checkout-session request body. -/
structure CheckoutBody where
  productId : Option String
  planName : Option String
  currency : Option String
  amount : Option ℚ
  successUrl : Option String
  cancelUrl : Option String
deriving DecidableEq

/-- The `price_data` object of a dynamic-price line item. -/
structure PriceData where
  currency : String
  product : String
  unit_amount : Int
  recurring_interval : String
deriving DecidableEq

/-- A line item of the checkout-session configuration. -/
structure LineItem where
  price_data : PriceData
  quantity : Nat
deriving DecidableEq

/-- The `metadata` object attached to the session configuration.  The
`amount` field goes through JavaScript `String(amount)`. -/
structure SessionMetadata where
  planName : Option String
  productId : Option String
  currency : Option String
  amountStr : String
deriving DecidableEq

/-- The `sessionConfig` object handed to
`stripe.checkout.sessions.create`. -/
structure SessionConfig where
  payment_method_types : List String
  mode : String
  success_url : String
  cancel_url : Option String
  line_items : List LineItem
  metadata : SessionMetadata
deriving DecidableEq

/-- Outcome of the handler before the provider call: an early error
response, or the configuration passed on to the payment provider. -/
inductive CheckoutOutcome where
  | errorResponse : Nat → Bool → String → CheckoutOutcome
  | proceed : SessionConfig → CheckoutOutcome
deriving DecidableEq

/-- The `POST /api/create-checkout-session` handler up to the provider
call: reject when Stripe is not configured (500) or the product id is
falsy (400); otherwise build the dynamic-price session configuration
with `unit_amount = Math.round((amount || 149) * 100)` cents and a fixed
monthly recurring interval. -/
def createCheckoutSession (stripeConfigured : Bool) (body : CheckoutBody) :
    CheckoutOutcome :=
  if !stripeConfigured then
    .errorResponse 500 false "Payment system not configured. Please contact support."
  else if !(jsTruthyStr body.productId) then
    .errorResponse 400 false "Missing product ID"
  else
    .proceed
      { payment_method_types := ["card"]
        mode := "subscription"
        success_url := jsAddStr body.successUrl "&session_id=\x7bCHECKOUT_SESSION_ID\x7d"
        cancel_url := body.cancelUrl
        line_items :=
          [{ price_data :=
              { currency := jsOrStr body.currency "usd"
                product := body.productId.getD ""
                unit_amount := jsRound (jsOrRat body.amount 149 * 100)
                recurring_interval := "month" }
             quantity := 1 }]
        metadata :=
          { planName := body.planName
            productId := body.productId
            currency := body.currency
            amountStr := jsStringOfRat body.amount } }

/-! ## Zoom token cache and accessor (`getZoomAccessToken`) -/

/-- The three Zoom Server-to-Server OAuth environment variables. -/
structure ZoomEnv where
  zoomAccountId : Option String
  zoomClientId : Option String
  zoomClientSecret : Option String
deriving DecidableEq

/-- The module-level token cache: the mutable cell pair `accessToken` /
`tokenExpiry` (expiry is an absolute `Date.now()`-style timestamp in
milliseconds). -/
structure CacheState where
  accessToken : Option String
  tokenExpiry : Option Int
deriving DecidableEq

/-- Both cache variables start as `null`. -/
def initialCache : CacheState :=
  { accessToken := none, tokenExpiry := none }

/-- The guard `accessToken and tokenExpiry and Date.now() < tokenExpiry`
(JavaScript truthiness on both cells, strict comparison on the clock). -/
def cacheHit (st : CacheState) (now : Int) : Bool :=
  jsTruthyStr st.accessToken && jsTruthyInt st.tokenExpiry &&
    decide (now < st.tokenExpiry.getD 0)

/-- Body of a successful upstream OAuth token response: the fields the
code reads, with `expires_in` in seconds. -/
structure TokenResponse where
  access_token : String
  expires_in : Int
deriving DecidableEq

/-- A failed upstream exchange: a transport error (no status) or a
non-2xx response, carrying whatever error body the upstream sent. -/
structure UpstreamFailure where
  status : Option Nat
  body : String
deriving DecidableEq

/-- What the single outbound POST to the token endpoint would yield. -/
abbrev UpstreamResult := Except UpstreamFailure TokenResponse

/-- The error thrown inside the try block: either the missing-credentials
`Error` thrown before any network call, or the axios error of a failed
exchange. -/
inductive InnerError where
  | missingCredentials : InnerError
  | upstream : UpstreamFailure → InnerError
deriving DecidableEq

/-- Message of the missing-credentials `Error` thrown inside the try
block (it lists all three variables; it is swallowed by the catch). -/
def missingZoomCredentialsMsg : String :=
  "Missing Zoom credentials. Set ZOOM_ACCOUNT_ID, ZOOM_CLIENT_ID, and ZOOM_CLIENT_SECRET environment variables."

/-- Message of the `Error` the catch block throws to the caller on any
failure inside the try block. -/
def authFailedMsg : String :=
  "Failed to authenticate with Zoom"

/-- All three credentials pass the truthiness test
`!(!ZOOM_ACCOUNT_ID or !ZOOM_CLIENT_ID or !ZOOM_CLIENT_SECRET)`. -/
def credsPresent (env : ZoomEnv) : Bool :=
  jsTruthyStr env.zoomAccountId && jsTruthyStr env.zoomClientId &&
    jsTruthyStr env.zoomClientSecret

deriving instance DecidableEq for Except

/-- Result of one inner try-block execution: the value returned or the
error thrown, the cache cells afterwards, and the number of outbound
network requests made. -/
structure TryResult where
  result : Except InnerError String
  state : CacheState
  networkCalls : Nat
deriving DecidableEq

/-- Result of one accessor call, with caller-visible errors as the plain
message string of the thrown `Error`. -/
structure TokenCallResult where
  result : Except String String
  state : CacheState
  networkCalls : Nat
deriving DecidableEq

/-- The try block of `getZoomAccessToken`: check the three credentials
(throwing before any network call when one is falsy), then perform the
single POST to the token endpoint; on success overwrite both cache cells
with `access_token` and `Date.now() + (expires_in - 300) * 1000` and
return the token; a failed exchange throws the axios error. -/
def getZoomAccessTokenTry (env : ZoomEnv) (now : Int)
    (upstream : UpstreamResult) (st : CacheState) : TryResult :=
  if !(credsPresent env) then
    { result := .error .missingCredentials, state := st, networkCalls := 0 }
  else
    match upstream with
    | .ok resp =>
        { result := .ok resp.access_token
          state :=
            { accessToken := some resp.access_token
              tokenExpiry := some (now + (resp.expires_in - 300) * 1000) }
          networkCalls := 1 }
    | .error f =>
        { result := .error (.upstream f), state := st, networkCalls := 1 }

/-- `getZoomAccessToken`: return the cached token when the guard holds
(zero network calls); otherwise run the try block, and let the catch
block convert any inner error into the single generic
`Failed to authenticate with Zoom` message without touching the cache. -/
def getZoomAccessToken (env : ZoomEnv) (now : Int)
    (upstream : UpstreamResult) (st : CacheState) : TokenCallResult :=
  if cacheHit st now then
    { result := .ok (st.accessToken.getD ""), state := st, networkCalls := 0 }
  else
    let r := getZoomAccessTokenTry env now upstream st
    match r.result with
    | .ok v => { result := .ok v, state := r.state, networkCalls := r.networkCalls }
    | .error _ =>
        { result := .error authFailedMsg, state := r.state, networkCalls := r.networkCalls }

/-- Run a sequence of accessor calls at the given times, threading the
cache; `oracle t` is what the network would return for an exchange
performed at time `t`.  Returns the list of per-call results, the final
cache, and the total number of outbound network requests. -/
def runCalls (env : ZoomEnv) (oracle : Int → UpstreamResult) :
    List Int → CacheState → List (Except String String) × CacheState × Nat
  | [], st => ([], st, 0)
  | t :: ts, st =>
      let r := getZoomAccessToken env t (oracle t) st
      let rest := runCalls env oracle ts r.state
      (r.result :: rest.1, rest.2.1, r.networkCalls + rest.2.2)

/-- Whether `needle` occurs as a substring of `hay`, checked on the
underlying character lists. -/
def strContains (hay needle : String) : Bool :=
  hay.toList.tails.any (fun t => needle.toList.isPrefixOf t)

/-- A concrete fully configured Zoom environment, for concrete runs. -/
def demoEnv : ZoomEnv :=
  { zoomAccountId := some "acc", zoomClientId := some "cid",
    zoomClientSecret := some "sec" }

/-- A concrete environment in which only the account id is unset. -/
def envMissingAccountId : ZoomEnv :=
  { zoomAccountId := none, zoomClientId := some "cid",
    zoomClientSecret := some "sec" }

/-- A concrete environment in which only the client secret is unset. -/
def envMissingSecret : ZoomEnv :=
  { zoomAccountId := some "acc", zoomClientId := some "cid",
    zoomClientSecret := none }

/-! ## Theorems -/

/-- Helper: the guard holds on a cache with a nonempty token string, a
nonzero expiry, and a clock strictly before that expiry. -/
theorem cacheHit_of_valid (v : String) (e now : Int)
    (hv : v ≠ "") (he : e ≠ 0) (hlt : now < e) :
    cacheHit ⟨some v, some e⟩ now = true := by
  simp [cacheHit, jsTruthyStr, jsTruthyInt, hv, he, hlt]

/-- Helper: an accessor call on a valid cache returns the cached value,
leaves the cache untouched and makes no network request. -/
theorem getZoomAccessToken_hit (env : ZoomEnv) (upstream : UpstreamResult)
    (v : String) (e now : Int) (hv : v ≠ "") (he : e ≠ 0) (hlt : now < e) :
    getZoomAccessToken env now upstream ⟨some v, some e⟩ =
      { result := .ok v, state := ⟨some v, some e⟩, networkCalls := 0 } := by
  simp [getZoomAccessToken, cacheHit_of_valid v e now hv he hlt]

/-- Helper: a run of accessor calls all made strictly before the expiry
of a valid cache returns the cached value every time, with zero network
requests in total and the cache unchanged. -/
theorem runCalls_all_hits (env : ZoomEnv) (oracle : Int → UpstreamResult)
    (v : String) (e : Int) (hv : v ≠ "") (he : e ≠ 0) :
    ∀ ts : List Int, (∀ t ∈ ts, t < e) →
      runCalls env oracle ts ⟨some v, some e⟩ =
        (ts.map (fun _ => Except.ok v), ⟨some v, some e⟩, 0) := by
  intro ts
  induction ts with
  | nil => intro _; rfl
  | cons t ts ih =>
      intro h
      have h1 := getZoomAccessToken_hit env (oracle t) v e t hv he
        (h t (List.mem_cons_self t ts))
      have h2 := ih (fun u hu => h u (List.mem_cons_of_mem t hu))
      simp [runCalls, h1, h2]

/-- Claim C9: every request to the send-welcome-email route, whatever the
body fields and whether retrieving the referenced checkout session
succeeds or fails, receives the HTTP 200 success envelope. -/
theorem send_welcome_email_always_success :
    ∀ (body : WelcomeBody) (retrieve : Except String RetrievedSession),
      sendWelcomeEmail body retrieve =
        { status := 200, success := true, message := "Welcome email queued" } := by
  intro body retrieve
  unfold sendWelcomeEmail
  split
  · cases retrieve <;> rfl
  · rfl

/-- Claim C10: the create-meeting handler never uses the body's
`startTime` (the payload record built from two bodies differing only in
it is the same, and the record has no start-time field at all), sends
the fixed meeting type 1, and defaults the topic to `MeetSync Call` and
the duration to 60 when the respective body field is absent. -/
theorem create_meeting_ignores_start_field :
    (∀ (body : MeetingBody) (s : Option String),
        buildMeetingData { body with startTime := s } = buildMeetingData body) ∧
    (∀ body : MeetingBody, (buildMeetingData body).type = 1) ∧
    (∀ body : MeetingBody, body.topic = none →
        (buildMeetingData body).topic = "MeetSync Call") ∧
    (∀ body : MeetingBody, body.duration = none →
        (buildMeetingData body).duration = 60) := by
  refine ⟨fun body s => rfl, fun body => rfl, ?_, ?_⟩
  · intro body h
    simp [buildMeetingData, jsOrStr, jsTruthyStr, h]
  · intro body h
    simp [buildMeetingData, jsOrInt, jsTruthyInt, h]

/-- Witness for C10 at concrete bodies. -/
theorem create_meeting_ignores_start_field_witness :
    buildMeetingData ⟨none, some "2030-01-01T10:00:00Z", some 30⟩ =
      buildMeetingData ⟨none, none, some 30⟩ ∧
    (buildMeetingData ⟨none, none, none⟩).type = 1 ∧
    (buildMeetingData ⟨none, none, none⟩).topic = "MeetSync Call" ∧
    (buildMeetingData ⟨none, none, none⟩).duration = 60 :=
  ⟨create_meeting_ignores_start_field.1 ⟨none, none, some 30⟩
      (some "2030-01-01T10:00:00Z"),
   create_meeting_ignores_start_field.2.1 ⟨none, none, none⟩,
   create_meeting_ignores_start_field.2.2.1 ⟨none, none, none⟩ rfl,
   create_meeting_ignores_start_field.2.2.2 ⟨none, none, none⟩ rfl⟩

/-- Claim C6: a webhook whose signature verification throws is answered
with HTTP 400 and a body that is `Webhook Error: ` followed by the
verification error message; a validly signed
`checkout.session.completed` event is answered with HTTP 200 and the
`received:true` JSON body. -/
theorem stripe_webhook_responses :
    (∀ msg : String,
        stripeWebhook (.error msg) =
          { status := 400, body := .text ("Webhook Error: " ++ msg) }) ∧
    (∀ ev : StripeEvent, ev.type = "checkout.session.completed" →
        stripeWebhook (.ok ev) =
          { status := 200, body := .jsonReceived true }) := by
  refine ⟨fun msg => rfl, ?_⟩
  intro ev h
  simp [stripeWebhook, h]

/-- Witness for C6 at a concrete failure message and a concrete event. -/
theorem stripe_webhook_responses_witness :
    stripeWebhook (.error "No signatures found") =
      { status := 400, body := .text ("Webhook Error: " ++ "No signatures found") } ∧
    stripeWebhook
        (.ok { type := "checkout.session.completed", objectId := "cs_123",
               customerEmail := some "user at example.com", planName := some "Pro" }) =
      { status := 200, body := .jsonReceived true } :=
  ⟨stripe_webhook_responses.1 "No signatures found",
   stripe_webhook_responses.2
     { type := "checkout.session.completed", objectId := "cs_123",
       customerEmail := some "user at example.com", planName := some "Pro" } rfl⟩

/-- Helper: masking a credential value preserves its presence bit. -/
theorem jsTruthyStr_maskValue (x : Option String) :
    jsTruthyStr (maskValue x) = jsTruthyStr x := by
  by_cases h : jsTruthyStr x = true <;>
    simp [maskValue, h, jsTruthyStr] <;>
    simp_all [jsTruthyStr]

/-- Claim C7: the health-descriptor response is a function of which
credentials are present only (presence in the sense the code tests it,
`!!value`): two environments that agree on presence yield identical
responses, and every environment yields the same response as its
value-masked counterpart, so no credential value flows into the
response. -/
theorem root_handler_presence_only :
    (∀ e1 e2 : ServerEnv, presenceVector e1 = presenceVector e2 →
        rootHandler e1 = rootHandler e2) ∧
    (∀ env : ServerEnv, rootHandler env = rootHandler (maskEnv env)) := by
  constructor
  · intro e1 e2 h
    simp only [presenceVector, Prod.mk.injEq] at h
    obtain ⟨h1, h2, h3, h4⟩ := h
    simp [rootHandler, h1, h2, h3, h4]
  · intro env
    simp [rootHandler, maskEnv, jsTruthyStr_maskValue]

/-- Witness for C7: two environments with different credential values
(one even holding an empty string, which the code counts as unset) but
the same presence pattern get identical responses. -/
theorem root_handler_presence_only_witness :
    rootHandler ⟨some "idA", none, some "secretA", some ""⟩ =
      rootHandler ⟨some "idB", none, some "secretB", none⟩ :=
  root_handler_presence_only.1
    ⟨some "idA", none, some "secretA", some ""⟩
    ⟨some "idB", none, some "secretB", none⟩ (by decide)

/-- Claim C5: a checkout-session request with product id `p1`, amount
149 and currency `usd` (any plan name and URLs) reaches the payment
provider with exactly one line item, whose price data carries
`unit_amount` 14900 integer cents — `Math.round` of the amount times
100 — and the fixed monthly recurring interval. -/
theorem checkout_session_unit_amount :
    ∀ planName successUrl cancelUrl : Option String,
      ∃ cfg : SessionConfig,
        createCheckoutSession true
          { productId := some "p1", planName := planName,
            currency := some "usd", amount := some 149,
            successUrl := successUrl, cancelUrl := cancelUrl } =
          .proceed cfg ∧
        cfg.line_items =
          [{ price_data :=
              { currency := "usd", product := "p1", unit_amount := 14900,
                recurring_interval := "month" }
             quantity := 1 }] := by
  intro planName successUrl cancelUrl
  refine ⟨_, rfl, ?_⟩
  have hamount : jsRound (jsOrRat (some 149) 149 * 100) = 14900 := by
    have h149 : jsOrRat (some 149) 149 = 149 := by simp [jsOrRat]
    rw [h149, jsRound, Int.floor_eq_iff]
    norm_num
  simp [jsOrStr, jsTruthyStr, hamount]

/-- Claim C1: when a cached token exists (a truthy token string and a
truthy stored expiry, which is what the code's guard tests) and the
clock is strictly before that expiry, the accessor returns the cached
value with zero network calls and an unchanged cache; and in every run
of accessor calls within one validity window only the first call
performs a network exchange, each later call returning the identical
cached value. -/
theorem token_cache_hit_and_single_exchange :
    (∀ (env : ZoomEnv) (upstream : UpstreamResult) (v : String) (e now : Int),
        v ≠ "" → e ≠ 0 → now < e →
        getZoomAccessToken env now upstream ⟨some v, some e⟩ =
          { result := .ok v, state := ⟨some v, some e⟩, networkCalls := 0 }) ∧
    (∀ (env : ZoomEnv) (oracle : Int → UpstreamResult) (t0 : Int)
        (ts : List Int) (resp : TokenResponse),
        credsPresent env = true → oracle t0 = .ok resp →
        resp.access_token ≠ "" →
        t0 + (resp.expires_in - 300) * 1000 ≠ 0 →
        (∀ t ∈ ts, t < t0 + (resp.expires_in - 300) * 1000) →
        runCalls env oracle (t0 :: ts) initialCache =
          ((t0 :: ts).map (fun _ => Except.ok resp.access_token),
           ⟨some resp.access_token, some (t0 + (resp.expires_in - 300) * 1000)⟩,
           1)) := by
  constructor
  · exact fun env upstream v e now hv he hlt =>
      getZoomAccessToken_hit env upstream v e now hv he hlt
  · intro env oracle t0 ts resp hcreds horacle hv he hts
    have hfirst : getZoomAccessToken env t0 (oracle t0) initialCache =
        { result := .ok resp.access_token,
          state := ⟨some resp.access_token,
                    some (t0 + (resp.expires_in - 300) * 1000)⟩,
          networkCalls := 1 } := by
      simp [getZoomAccessToken, cacheHit, initialCache, jsTruthyStr,
        getZoomAccessTokenTry, hcreds, horacle]
    have hrest := runCalls_all_hits env oracle resp.access_token
      (t0 + (resp.expires_in - 300) * 1000) hv he ts hts
    simp [runCalls, hfirst, hrest]

/-- Witness for C1: a concrete cache hit leaving the cache alone, and a
concrete three-call run that performs a single exchange. -/
theorem token_cache_hit_and_single_exchange_witness :
    getZoomAccessToken demoEnv 1000 (.ok ⟨"fresh", 3600⟩)
        ⟨some "cached", some 2000⟩ =
      { result := .ok "cached", state := ⟨some "cached", some 2000⟩,
        networkCalls := 0 } ∧
    runCalls demoEnv (fun _ => .ok ⟨"tok", 3600⟩) [0, 1000000, 2000000]
        initialCache =
      ([.ok "tok", .ok "tok", .ok "tok"], ⟨some "tok", some 3300000⟩, 1) := by
  constructor
  · exact token_cache_hit_and_single_exchange.1 demoEnv (.ok ⟨"fresh", 3600⟩)
      "cached" 2000 1000 (by decide) (by decide) (by decide)
  · have h := token_cache_hit_and_single_exchange.2 demoEnv
      (fun _ => .ok ⟨"tok", 3600⟩) 0 [1000000, 2000000] ⟨"tok", 3600⟩
      rfl rfl (by decide) (by decide) (by decide)
    exact h

/-- Claim C2: a refresh at time `now` (clock in milliseconds) that
succeeds with `expires_in = N` seconds stores the returned token and
sets the expiry to exactly `now + (N - 300) * 1000`, that is,
`call_time + (N - 300)` seconds rather than `call_time + N`, returning
the stored value; concretely, `expires_in = 3600` at time 0 yields
expiry 3300 seconds, a call at 3299 seconds is a cache hit with zero
network calls, and a call at 3301 seconds performs a fresh exchange. -/
theorem token_refresh_expiry_margin :
    (∀ (env : ZoomEnv) (now : Int) (st : CacheState) (resp : TokenResponse),
        cacheHit st now = false → credsPresent env = true →
        getZoomAccessToken env now (.ok resp) st =
          { result := .ok resp.access_token,
            state := { accessToken := some resp.access_token,
                       tokenExpiry := some (now + (resp.expires_in - 300) * 1000) },
            networkCalls := 1 }) ∧
    getZoomAccessToken demoEnv 0 (.ok ⟨"tok", 3600⟩) initialCache =
      { result := .ok "tok", state := ⟨some "tok", some 3300000⟩,
        networkCalls := 1 } ∧
    getZoomAccessToken demoEnv 3299000 (.ok ⟨"tok2", 3600⟩)
        ⟨some "tok", some 3300000⟩ =
      { result := .ok "tok", state := ⟨some "tok", some 3300000⟩,
        networkCalls := 0 } ∧
    (getZoomAccessToken demoEnv 3301000 (.ok ⟨"tok2", 3600⟩)
        ⟨some "tok", some 3300000⟩).networkCalls = 1 := by
  refine ⟨?_, by decide, by decide, by decide⟩
  intro env now st resp hmiss hcreds
  simp [getZoomAccessToken, hmiss, getZoomAccessTokenTry, hcreds]

/-- Witness for C2 at a concrete refresh. -/
theorem token_refresh_expiry_margin_witness :
    getZoomAccessToken demoEnv 500 (.ok ⟨"tokW", 7200⟩) initialCache =
      { result := .ok "tokW",
        state := ⟨some "tokW", some (500 + (7200 - 300) * 1000)⟩,
        networkCalls := 1 } :=
  token_refresh_expiry_margin.1 demoEnv 500 initialCache ⟨"tokW", 7200⟩ rfl rfl

/-- Counterexample to claim C3 as stated: with only the account id unset
and an empty cache, the accessor fails with the generic message
`Failed to authenticate with Zoom` — the same message produced when
instead only the client secret is unset, and one that does not mention
`ZOOM_ACCOUNT_ID` — so the surfaced error does not name which value is
missing (the descriptive message thrown inside the try block is
swallowed by the catch).  The zero-network-calls part does hold. -/
theorem missing_credentials_error_counterexample :
    (getZoomAccessToken envMissingAccountId 0 (.ok ⟨"tok", 3600⟩)
        initialCache).result = .error "Failed to authenticate with Zoom" ∧
    (getZoomAccessToken envMissingAccountId 0 (.ok ⟨"tok", 3600⟩)
        initialCache).result =
      (getZoomAccessToken envMissingSecret 0 (.ok ⟨"tok", 3600⟩)
        initialCache).result ∧
    strContains "Failed to authenticate with Zoom" "ZOOM_ACCOUNT_ID" = false ∧
    (getZoomAccessToken envMissingAccountId 0 (.ok ⟨"tok", 3600⟩)
        initialCache).networkCalls = 0 := by
  refine ⟨rfl, rfl, ?_, rfl⟩
  decide

/-- Claim C3 (amended): when any of the three credentials is falsy and
no valid cached token exists, the call fails fast — zero outbound
network requests and an unchanged cache — but with the generic
`AuthError` message `Failed to authenticate with Zoom`, the catch block
having replaced the internal missing-credentials message (which itself
lists all three variables rather than naming the missing one). -/
theorem missing_credentials_generic_failure :
    ∀ (env : ZoomEnv) (now : Int) (upstream : UpstreamResult) (st : CacheState),
      cacheHit st now = false → credsPresent env = false →
      getZoomAccessToken env now upstream st =
        { result := .error authFailedMsg, state := st, networkCalls := 0 } := by
  intro env now upstream st hmiss hcreds
  simp [getZoomAccessToken, hmiss, getZoomAccessTokenTry, hcreds]

/-- Witness for the amended C3 at a concrete environment. -/
theorem missing_credentials_generic_failure_witness :
    getZoomAccessToken envMissingAccountId 7 (.ok ⟨"tok", 3600⟩) initialCache =
      { result := .error authFailedMsg, state := initialCache,
        networkCalls := 0 } :=
  missing_credentials_generic_failure envMissingAccountId 7 (.ok ⟨"tok", 3600⟩)
    initialCache rfl rfl

/-- Claim C4: a refresh attempt that reaches the network and fails
(transport error or non-2xx response, whatever the upstream status and
error body) leaves both cache cells exactly as they were and surfaces
the fixed generic message `Failed to authenticate with Zoom`, into which
no part of the upstream failure flows. -/
theorem failed_refresh_preserves_cache :
    ∀ (env : ZoomEnv) (now : Int) (st : CacheState) (f : UpstreamFailure),
      cacheHit st now = false → credsPresent env = true →
      getZoomAccessToken env now (.error f) st =
        { result := .error authFailedMsg, state := st, networkCalls := 1 } := by
  intro env now st f hmiss hcreds
  simp [getZoomAccessToken, hmiss, getZoomAccessTokenTry, hcreds]

/-- Witness for C4: a concrete 401 failure with an expired cached token
leaves the stale cache untouched. -/
theorem failed_refresh_preserves_cache_witness :
    getZoomAccessToken demoEnv 100 (.error ⟨some 401, "invalid_client"⟩)
        ⟨some "old", some 100⟩ =
      { result := .error authFailedMsg, state := ⟨some "old", some 100⟩,
        networkCalls := 1 } :=
  failed_refresh_preserves_cache demoEnv 100 ⟨some "old", some 100⟩
    ⟨some 401, "invalid_client"⟩ (by decide) rfl

/-- Helper: a true guard forces a nonempty cached token, a nonzero
stored expiry, and a clock strictly before it. -/
theorem cacheHit_shape (st : CacheState) (now : Int)
    (hc : cacheHit st now = true) :
    ∃ v e, st.accessToken = some v ∧ st.tokenExpiry = some e ∧
      v ≠ "" ∧ e ≠ 0 ∧ now < e := by
  obtain ⟨a, b⟩ := st
  cases a with
  | none => simp [cacheHit, jsTruthyStr] at hc
  | some v =>
      cases b with
      | none => simp [cacheHit, jsTruthyInt] at hc
      | some e =>
          simp only [cacheHit, jsTruthyStr, jsTruthyInt, Option.getD_some,
            Bool.and_eq_true, decide_eq_true_eq] at hc
          exact ⟨v, e, rfl, rfl, hc.1.1, hc.1.2, hc.2⟩

/-- Claim C8: once the clock has reached the stored expiry the cached
token is treated as absent — the guard fails, so the stale value is
never returned — and every value the accessor ever returns is either a
cache hit strictly before its stored expiry (zero network calls) or the
`access_token` of the exchange performed by that very call (one network
call). -/
theorem expired_token_treated_absent :
    ∀ (env : ZoomEnv) (now : Int) (st : CacheState) (upstream : UpstreamResult),
      (∀ e : Int, st.tokenExpiry = some e → e ≤ now →
        cacheHit st now = false) ∧
      (∀ v : String,
        (getZoomAccessToken env now upstream st).result = .ok v →
        (cacheHit st now = true ∧ st.accessToken = some v ∧
            (getZoomAccessToken env now upstream st).networkCalls = 0) ∨
        (∃ resp : TokenResponse, upstream = .ok resp ∧
            v = resp.access_token ∧
            (getZoomAccessToken env now upstream st).networkCalls = 1)) := by
  intro env now st upstream
  constructor
  · intro e he hle
    have hnl : ¬ now < e := not_lt.mpr hle
    simp [cacheHit, he, hnl]
  · intro v hv
    by_cases hc : cacheHit st now = true
    · left
      obtain ⟨w, e, hsa, hse, hw, he0, hlt⟩ := cacheHit_shape st now hc
      have hst : st = ⟨some w, some e⟩ := by
        obtain ⟨a, b⟩ := st
        simp_all
      rw [hst] at hv ⊢
      rw [getZoomAccessToken_hit env upstream w e now hw he0 hlt] at hv ⊢
      simp only [Except.ok.injEq] at hv
      exact ⟨cacheHit_of_valid w e now hw he0 hlt, congrArg some hv, rfl⟩
    · right
      rw [Bool.not_eq_true] at hc
      cases hcr : credsPresent env with
      | false =>
          exfalso
          simp [getZoomAccessToken, hc, getZoomAccessTokenTry, hcr] at hv
      | true =>
          cases hup : upstream with
          | error f =>
              exfalso
              simp [getZoomAccessToken, hc, getZoomAccessTokenTry, hcr, hup] at hv
          | ok resp =>
              refine ⟨resp, rfl, ?_, ?_⟩
              · simp [getZoomAccessToken, hc, getZoomAccessTokenTry, hcr, hup] at hv
                exact hv.symm
              · simp [getZoomAccessToken, hc, getZoomAccessTokenTry, hcr, hup]

/-- Witness for C8: the guard rejects a cache exactly at its expiry, and
a concrete successful call from an empty cache is classified as the
fresh exchange of that call. -/
theorem expired_token_treated_absent_witness :
    cacheHit ⟨some "tok", some 50⟩ 50 = false ∧
    ((cacheHit initialCache 0 = true ∧ initialCache.accessToken = some "tok" ∧
        (getZoomAccessToken demoEnv 0 (.ok ⟨"tok", 3600⟩)
          initialCache).networkCalls = 0) ∨
      (∃ resp : TokenResponse, (.ok ⟨"tok", 3600⟩ : UpstreamResult) = .ok resp ∧
        "tok" = resp.access_token ∧
        (getZoomAccessToken demoEnv 0 (.ok ⟨"tok", 3600⟩)
          initialCache).networkCalls = 1)) :=
  ⟨(expired_token_treated_absent demoEnv 50 ⟨some "tok", some 50⟩
      (.ok ⟨"t", 1⟩)).1 50 rfl le_rfl,
   (expired_token_treated_absent demoEnv 0 initialCache
      (.ok ⟨"tok", 3600⟩)).2 "tok" rfl⟩

end Meet
